import Mathlib

/-!
Verification of the path-allocation, output-capture and resource-scope layer
of PySIMRecon (`src/sim_recon/files/utils.py`), as a shallow embedding.

Filesystem state is modelled as explicit data passed to each function:
a list of existing paths for plain existence checks, and richer structures
where directory-ness or directory contents matter.  Each Python function is
translated into a Lean function over that state; functions that raise are
translated with an explicit result type whose error constructors mirror the
PySimRecon exception taxonomy.  Functions that perform `Path.exists()`
probes additionally return the ordered list of paths probed, so that
claims about "no filesystem probing before X" are statable.
-/

namespace SimRecon

/-- A filesystem path, split as the containing directory and the final
filename component, mirroring `output_directory / name` in the source. -/
structure FsPath where
  dir : String
  name : String
  deriving DecidableEq, Repr

/-- Filesystem state for plain existence checks: the list of existing paths.
`fsExists` models `Path.exists()`. -/
def fsExists (fs : List FsPath) (p : FsPath) : Bool :=
  fs.contains p

/-- Result type for the path-allocation functions, mirroring the PySimRecon
exception taxonomy: `valueError` is `PySimReconValueError` (ValidationError),
`ioError` is `PySimReconIOError` carrying the final probed path named in its
message, `osError` is `PySimReconOSError` (UnsupportedPlatformError), and
`fileExistsError` is `PySimReconFileExistsError` (AlreadyExistsError). -/
inductive PathResult where
  | ok (p : FsPath)
  | valueError (msg : String)
  | ioError (finalAttempt : Option FsPath)
  | osError (msg : String)
  | fileExistsError (p : FsPath)
  deriving DecidableEq, Repr

/-- The numbered candidate filename `f"{stem}_{i}{suffix}"` probed by
`ensure_unique_filepath`. -/
def candidateName (stem suffix : String) (i : Nat) : String :=
  stem ++ "_" ++ toString i ++ suffix

/-- The `for i in range(1, max_iter + 1)` loop body of
`ensure_unique_filepath`: probes each numbered candidate in order, returns
the first that does not exist; when every candidate exists, fails with
`PySimReconIOError` whose message names the final probed path (the Python
`output_path` variable holds the last candidate after the loop).  Also
returns the ordered list of candidates whose existence was checked. -/
def uniqueLoop (fs : List FsPath) (dir stem suffix : String) :
    List Nat → PathResult × List FsPath
  | [] => (.ioError none, [])
  | i :: rest =>
    let p : FsPath := ⟨dir, candidateName stem suffix i⟩
    if fsExists fs p then
      match rest with
      | [] => (.ioError (some p), [p])
      | _ :: _ =>
        let r := uniqueLoop fs dir stem suffix rest
        (r.1, p :: r.2)
    else
      (.ok p, [p])

/-- Embedding of `ensure_unique_filepath(output_directory, stem, suffix,
max_iter=99)`.  Faithful to the source order of operations: the base path
`f"{stem}{suffix}"` is existence-checked first and returned if free; only
then is `max_iter <= 1` validated; otherwise candidates
`f"{stem}_{i}{suffix}"` for `i in range(1, max_iter + 1)` are probed.
The second component is the ordered list of paths existence-checked. -/
def ensure_unique_filepath (fs : List FsPath) (output_directory stem suffix : String)
    (max_iter : Int := 99) : PathResult × List FsPath :=
  let path : FsPath := ⟨output_directory, stem ++ suffix⟩
  if !fsExists fs path then
    (.ok path, [path])
  else if max_iter ≤ 1 then
    (.valueError "max_iter must be >1", [path])
  else
    let r := uniqueLoop fs output_directory stem suffix (List.range' 1 max_iter.toNat)
    (r.1, path :: r.2)

/-- Characters matched by the compiled pattern `_WINDOWS_FN_SUB`.  The source
Python string literal denotes, after escaping, the regex
`[<>:"/\|?*]`; inside a character class `\|` is an escaped pipe, so the class
matches exactly these eight characters and a backslash itself is NOT matched. -/
def windowsInvalidChars : List Char := ['<', '>', ':', '"', '/', '|', '?', '*']

/-- Characters matched by `_LINUX_FN_SUB` (the regex `/`). -/
def linuxInvalidChars : List Char := ['/']

/-- Characters matched by `_DARWIN_FN_SUB` (the regex `[/:]`). -/
def darwinInvalidChars : List Char := ['/', ':']

/-- List-level body of Python `str.rstrip(chars)`: removes the maximal
trailing run of characters belonging to `strip`. -/
def rstripList (strip : List Char) (l : List Char) : List Char :=
  (l.reverse.dropWhile (fun c => strip.contains c)).reverse

/-- Embedding of Python `str.rstrip(chars)`. -/
def rstripChars (strip : List Char) (s : String) : String :=
  String.mk (rstripList strip s.toList)

/-- List-level body of `re.sub(character_class, "_", s)`: each character of
the class is a one-character match, replaced by an underscore. -/
def subList (invalid : List Char) (l : List Char) : List Char :=
  l.map (fun c => if invalid.contains c then '_' else c)

/-- Embedding of `re.sub(character_class, "_", s)`. -/
def subInvalidChars (invalid : List Char) (s : String) : String :=
  String.mk (subList invalid s.toList)

/-- Result of `ensure_valid_filename`: `osError` mirrors
`PySimReconOSError` (UnsupportedPlatformError). -/
inductive FilenameResult where
  | ok (name : String)
  | osError (msg : String)
  deriving DecidableEq, Repr

/-- Whether an `ensure_valid_filename` run returned a name rather than
raising. -/
def FilenameResult.isOk : FilenameResult → Bool
  | .ok _ => true
  | .osError _ => false

/-- Embedding of `ensure_valid_filename(filename)`.  `system` stands for the
value of `platform.system()`.  Faithful to the source order: the filename is
first `rstrip`-ped (with `" ."` on Windows, `" "` otherwise) and the invalid
characters of the recognized platform are then substituted by `_`; any other
platform string raises `PySimReconOSError`. -/
def ensure_valid_filename (system : String) (filename : String) : FilenameResult :=
  if system = "Windows" then
    .ok (subInvalidChars windowsInvalidChars (rstripChars [' ', '.'] filename))
  else if system = "Linux" then
    .ok (subInvalidChars linuxInvalidChars (rstripChars [' '] filename))
  else if system = "Darwin" then
    .ok (subInvalidChars darwinInvalidChars (rstripChars [' '] filename))
  else
    .osError (system ++ " is not a supported system")

/-- The `Literal["otf", "recon"]` output-type argument of
`create_output_path`. -/
inductive OutputType where
  | otf
  | recon
  deriving DecidableEq, Repr

/-- The `_OUTPUT_TYPE_STUBS` lookup: `OTF_NAME_STUB` and `RECON_NAME_STUB`. -/
def outputTypeStub : OutputType → String
  | .otf => "OTF"
  | .recon => "recon"

/-- The `"_".join(output_fp_parts)` stem built by `create_output_path`:
source stem, type stub, then the optional wavelength and the optional
modification-timestamp string. -/
def outputFileStem (file_stem : String) (output_type : OutputType)
    (wavelength : Option Int) (timestampStr : Option String) : String :=
  String.intercalate "_"
    ([file_stem, outputTypeStub output_type]
      ++ (match wavelength with
          | some w => [toString w]
          | none => [])
      ++ (match timestampStr with
          | some t => [t]
          | none => []))

/-- Embedding of `create_output_path`.  `file_parent` and `file_stem` are
`file_path.parent` and `file_path.stem`; `timestampStr` models the
`mod_timestamp` option as the already-`strftime`-formatted modification time
(`none` when `mod_timestamp` is false).  With `ensure_unique` the raw joined
stem is handed to `ensure_unique_filepath`; otherwise the full filename
`f"{file_stem}{suffix}"` passes through `ensure_valid_filename` and is
joined onto the output directory, with no existence check.  The second
component is the ordered list of paths existence-checked. -/
def create_output_path (fs : List FsPath) (system : String)
    (file_parent file_stem : String) (output_type : OutputType) (suffix : String)
    (output_directory : Option String) (wavelength : Option Int)
    (timestampStr : Option String) (ensure_unique : Bool) (max_path_iter : Int) :
    PathResult × List FsPath :=
  let outDir := output_directory.getD file_parent
  let stem := outputFileStem file_stem output_type wavelength timestampStr
  if ensure_unique then
    ensure_unique_filepath fs outDir stem suffix max_path_iter
  else
    match ensure_valid_filename system (stem ++ suffix) with
    | .ok nm => (.ok ⟨outDir, nm⟩, [])
    | .osError m => (.osError m, [])

/-- Embedding of `pathlib.PurePath.suffix` for a final path component:
the substring from the last dot, provided that dot is neither the first
nor the last character; otherwise the suffix is empty. -/
def pySuffix (name : String) : String :=
  let cs := name.toList
  let k := (cs.reverse.takeWhile (fun c => c ≠ '.')).length
  if k = cs.length then ""
  else if k = 0 then ""
  else if cs.length - k - 1 = 0 then ""
  else String.mk (cs.drop (cs.length - k - 1))

/-- Python `suffix.startswith('.')`: the first character is a dot. -/
def strStartsWithDot (s : String) : Bool :=
  match s.toList with
  | [] => false
  | c :: _ => c == '.'

/-- Embedding of `pathlib.PurePath.with_suffix(suffix)` acting on the final
path component `name`: rejects a suffix containing the path separator, a
non-empty suffix not starting with a dot, the bare dot, and an empty name;
otherwise it REPLACES the existing `pySuffix` of `name` (appending when
that suffix is empty). -/
def with_suffix (name : String) (suffix : String) : Except String String :=
  if suffix.toList.contains '/' then
    .error "Invalid suffix"
  else if (!(suffix == "") && !(strStartsWithDot suffix)) || suffix == "." then
    .error "Invalid suffix"
  else if name == "" then
    .error "empty name"
  else
    let old := pySuffix name
    if old == "" then
      .ok (name ++ suffix)
    else
      .ok (String.mk (name.toList.take (name.toList.length - old.toList.length)) ++ suffix)

/-- Embedding of `get_temporary_path(directory, stem, suffix)`.  `uuidToken`
stands for `str(uuid4())`, a 36-character string of lowercase hex digits and
hyphens (in particular containing no dot).  The source builds
`directory / f"{stem}_{uuid4()}"` and then calls `.with_suffix(suffix)`;
if the resulting path exists it raises `PySimReconFileExistsError`
immediately, with no retry. -/
def get_temporary_path (fs : List FsPath) (directory stem suffix : String)
    (uuidToken : String) : PathResult :=
  match with_suffix (stem ++ "_" ++ uuidToken) suffix with
  | .error m => .valueError m
  | .ok nm =>
    let p : FsPath := ⟨directory, nm⟩
    if !fsExists fs p then .ok p
    else .fileExistsError p

/-- Directory-level filesystem state: each existing directory with its list
of entry names (`os.scandir` output). -/
abbrev DirListing := List (String × List String)

/-- Models `os.path.isdir(p)`. -/
def isDirIn (fs : DirListing) (p : String) : Bool :=
  fs.any (fun d => d.1 == p)

/-- Models listing a directory with `os.scandir(p)`. -/
def scandirEntries (fs : DirListing) (p : String) : List String :=
  ((fs.find? (fun d => d.1 == p)).map Prod.snd).getD []

/-- Models `os.rmdir(p)` on a directory already known to be empty. -/
def rmdirIn (fs : DirListing) (p : String) : DirListing :=
  fs.filter (fun d => !(d.1 == p))

/-- Embedding of the `delete_directory_if_empty(path)` context manager
around a guarded body.  `fsBefore` is the directory state when the guard is
entered (where `try_cleanup = not os.path.isdir(path)` is computed);
`fsAfter` is the state when the body finishes, and `bodyExc` the exception
the body raised, if any.  The `finally` block runs in both cases: when the
directory did not exist before but is an empty directory now, it is removed;
the body exception, if any, then propagates unchanged. -/
def delete_directory_if_empty (path : Option String)
    (fsBefore fsAfter : DirListing) (bodyExc : Option String) :
    DirListing × Option String :=
  match path with
  | none => (fsAfter, bodyExc)
  | some p =>
    let tryCleanup := !isDirIn fsBefore p
    let fsFinal :=
      if tryCleanup && isDirIn fsAfter p && (scandirEntries fsAfter p).isEmpty then
        rmdirIn fsAfter p
      else fsAfter
    (fsFinal, bodyExc)

/-- A filesystem node for the `NamedTemporaryDirectory` model: a path
together with whether it is a directory. -/
structure FsNode where
  path : String
  isDirectory : Bool
  deriving DecidableEq, Repr

/-- Models `Path(p).exists()` over node state. -/
def nodeExists (fs : List FsNode) (p : String) : Bool :=
  fs.any (fun n => n.path == p)

/-- Models `Path(p).is_dir()` over node state. -/
def nodeIsDir (fs : List FsNode) (p : String) : Bool :=
  fs.any (fun n => n.path == p && n.isDirectory)

/-- Outcome of `NamedTemporaryDirectory.__init__`: either the named
directory `{directory}/{name}` was created, or construction fell through to
`TemporaryDirectory.__init__(prefix=name, dir=directory)` which creates an
anonymous uniquely-named directory under `directory` (`pfx` records the
prefix argument), or one of the two error exits was taken
(`PySimReconFileNotFoundError`, `PySimReconFileExistsError`). -/
inductive NtdResult where
  | named (path : String)
  | anonymous (dir : String) (pfx : Option String)
  | notFoundError (msg : String)
  | fileExistsError (msg : String)
  deriving DecidableEq, Repr

/-- The part of `NamedTemporaryDirectory.__init__` from `if not
path.exists():` on, once the parent is settled: create and return the named
target if it is free, otherwise raise `PySimReconFileExistsError` unless
`allow_fallback`, in which case defer to the anonymous
`TemporaryDirectory` under the same parent with the name as prefix. -/
def namedTempDirTarget (fs : List FsNode) (directory nm p : String)
    (allow_fallback : Bool) : NtdResult × List FsNode :=
  if !nodeExists fs p then
    (.named p, ⟨p, true⟩ :: fs)
  else if !allow_fallback then
    (.fileExistsError ("Directory cannot be created as '" ++ p ++ "' exists"), fs)
  else
    (.anonymous directory (some nm), fs)

/-- Embedding of `NamedTemporaryDirectory.__init__(directory, name,
parents, allow_fallback)`.  `name` is modelled as a single path component,
so `(Path(directory) / name).parent` is `directory` itself.  With a name:
a missing parent raises `PySimReconFileNotFoundError` unless `parents`, in
which case the parent is created (`mkdir(parents=True)`); then the target
is handled by `namedTempDirTarget`.  Without a name, construction goes
straight to the anonymous `TemporaryDirectory` under `directory`. -/
def namedTemporaryDirectory (fs : List FsNode) (directory : String)
    (name : Option String) (parents allow_fallback : Bool) :
    NtdResult × List FsNode :=
  match name with
  | some nm =>
    let p := directory ++ "/" ++ nm
    if !nodeIsDir fs directory then
      if !parents then
        (.notFoundError ("Parent directory " ++ directory ++ " does not exist"), fs)
      else
        namedTempDirTarget (⟨directory, true⟩ :: fs) directory nm p allow_fallback
    else
      namedTempDirTarget fs directory nm p allow_fallback
  | none => (.anonymous directory none, fs)

/-- Exceptions observable by the caller of `with redirect_output_to(p):`.
`runtimeGenDidNotYield` is the generator-did-not-yield `RuntimeError`
that `contextlib._GeneratorContextManager.__enter__` raises when the
wrapped generator returns without reaching its `yield`;
`savedFdDupOsError` is an `OSError` from the initial `os.dup` calls, which
sit outside both `try` blocks and therefore propagate unwrapped. -/
inductive CaptureExc where
  | runtimeGenDidNotYield
  | savedFdDupOsError
  deriving DecidableEq, Repr

/-- Observable outcome of running `with redirect_output_to(file_path):
body`: what (if anything) propagates to the caller, which of the two
`logger.error` calls fired, whether the body ran at all, whether it ran
with both OS-level streams redirected to the log file, and whether the
original stream destinations are in effect when the with-statement is
over. -/
structure CaptureOutcome where
  raisedToCaller : Option CaptureExc
  loggedOpenFailure : Bool
  loggedRedirectFailure : Bool
  bodyRan : Bool
  bodyCaptured : Bool
  originalStreamsAtExit : Bool
  deriving DecidableEq, Repr

/-- Embedding of `with redirect_output_to(file_path): body` including the
semantics `contextlib.contextmanager` gives the generator in
`redirect_output_to`.  `saveFdsOk` is whether the initial `os.dup` calls
succeed, `openOk` whether `file_path.open("w+")` succeeds, `dup2Ok` whether
the redirecting `os.dup2` calls succeed, and `bodyExc` the exception the
body raises, if any.  Case analysis, following the source:
if `os.dup` fails the `OSError` propagates raw and nothing was changed;
if `open` fails, the outer `except` logs "Failed to create log file" and
the generator returns without yielding, so `__enter__` raises
`RuntimeError` and the body never runs;
if `dup2` fails, the inner `except` logs "Failed to redirect output", the
`finally` restores the descriptors, and again the generator never yields,
so `__enter__` raises `RuntimeError` and the body never runs;
if the body completes, the `finally` flushes, fsyncs and restores, and
nothing is raised;
if the body raises, `__exit__` throws the exception into the generator at
the `yield`, the inner `except` catches and logs it, the `finally`
restores, the generator finishes, and `__exit__` returns True: the body
exception is suppressed and the caller sees nothing. -/
def with_redirect_output_to (saveFdsOk openOk dup2Ok : Bool)
    (bodyExc : Option String) : CaptureOutcome :=
  if !saveFdsOk then
    ⟨some .savedFdDupOsError, false, false, false, false, true⟩
  else if !openOk then
    ⟨some .runtimeGenDidNotYield, true, false, false, false, true⟩
  else if !dup2Ok then
    ⟨some .runtimeGenDidNotYield, false, true, false, false, true⟩
  else
    match bodyExc with
    | none => ⟨none, false, false, true, true, true⟩
    | some _ => ⟨none, false, true, true, true, true⟩

/-- The numbered-candidate loop returns the first free candidate of its
index list, in order; when every candidate exists it fails with an
`ioError` naming the last index probed. -/
theorem uniqueLoop_fst_eq (fs : List FsPath) (dir stem suffix : String) (is : List Nat) :
    (uniqueLoop fs dir stem suffix is).1 =
      match is.find? (fun i => !fsExists fs ⟨dir, candidateName stem suffix i⟩) with
      | some j => PathResult.ok ⟨dir, candidateName stem suffix j⟩
      | none =>
          PathResult.ioError (is.getLast?.map fun i => ⟨dir, candidateName stem suffix i⟩) := by
  induction is with
  | nil => rfl
  | cons i rest ih =>
    cases h : fsExists fs ⟨dir, candidateName stem suffix i⟩ with
    | false =>
      rw [List.find?_cons_of_pos _ (by simp [h])]
      simp [uniqueLoop, h]
    | true =>
      rw [List.find?_cons_of_neg _ (by simp [h])]
      cases rest with
      | nil => simp [uniqueLoop, h]
      | cons j rest2 =>
        have hu : (uniqueLoop fs dir stem suffix (i :: j :: rest2)).1
            = (uniqueLoop fs dir stem suffix (j :: rest2)).1 := by
          simp [uniqueLoop, h]
        rw [hu, ih, List.getLast?_cons_cons]

/-- Every path probed by the numbered-candidate loop lies in the target
directory and carries a numbered candidate filename. -/
theorem uniqueLoop_trace_shape (fs : List FsPath) (dir stem suffix : String) (is : List Nat) :
    ∀ q ∈ (uniqueLoop fs dir stem suffix is).2,
      q.dir = dir ∧ ∃ i, q.name = candidateName stem suffix i := by
  induction is with
  | nil => intro q hq; simp [uniqueLoop] at hq
  | cons i rest ih =>
    intro q hq
    cases h : fsExists fs ⟨dir, candidateName stem suffix i⟩ with
    | false =>
      simp [uniqueLoop, h] at hq
      subst hq
      exact ⟨rfl, i, rfl⟩
    | true =>
      cases rest with
      | nil =>
        simp [uniqueLoop, h] at hq
        subst hq
        exact ⟨rfl, i, rfl⟩
      | cons j rest2 =>
        simp only [uniqueLoop, h, if_true, List.mem_cons] at hq
        rcases hq with hq | hq
        · subst hq
          exact ⟨rfl, i, rfl⟩
        · exact ih q hq

/-- Successful unique-path resolution returns either the base path or a
numbered candidate, always inside the target directory and always built
from the raw stem handed in. -/
theorem ensure_unique_filepath_ok_shape (fs : List FsPath) (dir stem suffix : String)
    (max_iter : Int) (p : FsPath)
    (h : (ensure_unique_filepath fs dir stem suffix max_iter).1 = PathResult.ok p) :
    p.dir = dir ∧
      (p.name = stem ++ suffix ∨ ∃ i, p.name = candidateName stem suffix i) := by
  unfold ensure_unique_filepath at h
  cases hb : fsExists fs ⟨dir, stem ++ suffix⟩ with
  | false =>
    simp [hb] at h
    subst h
    exact ⟨rfl, Or.inl rfl⟩
  | true =>
    simp only [hb, Bool.not_true, Bool.false_eq_true, if_false] at h
    by_cases hm : max_iter ≤ 1
    · simp [hm] at h
    · simp only [hm, if_false] at h
      rw [uniqueLoop_fst_eq] at h
      rcases hf : (List.range' 1 max_iter.toNat).find?
          (fun i => !fsExists fs ⟨dir, candidateName stem suffix i⟩) with _ | j
      · rw [hf] at h
        simp at h
      · rw [hf] at h
        simp only [PathResult.ok.injEq] at h
        subst h
        exact ⟨rfl, Or.inr ⟨j, rfl⟩⟩

/-- Every path existence-checked by unique-path resolution is the base path
or a numbered candidate in the target directory, built from the raw stem. -/
theorem ensure_unique_filepath_trace_shape (fs : List FsPath) (dir stem suffix : String)
    (max_iter : Int) :
    ∀ q ∈ (ensure_unique_filepath fs dir stem suffix max_iter).2,
      q.dir = dir ∧
        (q.name = stem ++ suffix ∨ ∃ i, q.name = candidateName stem suffix i) := by
  intro q hq
  unfold ensure_unique_filepath at hq
  cases hb : fsExists fs ⟨dir, stem ++ suffix⟩ with
  | false =>
    simp [hb] at hq
    subst hq
    exact ⟨rfl, Or.inl rfl⟩
  | true =>
    simp only [hb, Bool.not_true, Bool.false_eq_true, if_false] at hq
    by_cases hm : max_iter ≤ 1
    · simp [hm] at hq
      subst hq
      exact ⟨rfl, Or.inl rfl⟩
    · simp only [hm, if_false, List.mem_cons] at hq
      rcases hq with hq | hq
      · subst hq
        exact ⟨rfl, Or.inl rfl⟩
      · obtain ⟨hd, i, hn⟩ := uniqueLoop_trace_shape fs dir stem suffix _ q hq
        exact ⟨hd, Or.inr ⟨i, hn⟩⟩

/-- The last index probed by a loop over `range' 1 n` is `n` itself. -/
theorem getLast?_range'_one (n : Nat) (h : 0 < n) :
    (List.range' 1 n).getLast? = some n := by
  obtain ⟨m, rfl⟩ : ∃ m, n = m + 1 := ⟨n - 1, by omega⟩
  rw [List.range'_concat, List.getLast?_concat]
  congr 1
  omega

/-- Claim C3 counterexample: with `max_iter = 1` and a base path that does
not exist, `ensure_unique_filepath` does NOT fail with a ValidationError:
it existence-checks the base path (a filesystem probe) and returns it. -/
theorem ensure_unique_filepath_maxiter_one_cex :
    ensure_unique_filepath [] "d" "s" ".x" 1
      = (PathResult.ok ⟨"d", "s.x"⟩, [⟨"d", "s.x"⟩]) := by
  decide

/-- Claim C3 (amended): with `max_attempts ≤ 1`, unique-path resolution
fails with ValidationError only when the base path `stem + suffix` already
exists, and that failure comes after exactly one existence check, on the
base path itself, with no numbered candidate probed; when the base path
does not exist, it is returned with no error despite `max_attempts ≤ 1`. -/
theorem ensure_unique_filepath_maxiter_le_one (fs : List FsPath)
    (dir stem suffix : String) (max_iter : Int) (h : max_iter ≤ 1) :
    (fsExists fs ⟨dir, stem ++ suffix⟩ = true →
      ensure_unique_filepath fs dir stem suffix max_iter
        = (PathResult.valueError "max_iter must be >1", [⟨dir, stem ++ suffix⟩])) ∧
    (fsExists fs ⟨dir, stem ++ suffix⟩ = false →
      ensure_unique_filepath fs dir stem suffix max_iter
        = (PathResult.ok ⟨dir, stem ++ suffix⟩, [⟨dir, stem ++ suffix⟩])) := by
  constructor
  · intro hb
    unfold ensure_unique_filepath
    simp [hb, h]
  · intro hb
    unfold ensure_unique_filepath
    simp [hb]

/-- Witness for the amended claim C3 at a concrete state: the base path
exists and `max_iter = 1`, so resolution fails with ValidationError after
probing exactly the base path. -/
theorem ensure_unique_filepath_maxiter_le_one_witness :
    ensure_unique_filepath [⟨"d", "s" ++ ".x"⟩] "d" "s" ".x" 1
      = (PathResult.valueError "max_iter must be >1", [⟨"d", "s" ++ ".x"⟩]) :=
  (ensure_unique_filepath_maxiter_le_one [⟨"d", "s" ++ ".x"⟩] "d" "s" ".x" 1
    (by decide)).1 (by decide)

/-- Claim C4: with `max_attempts ≥ 2`, unique-path resolution returns the
base path `stem + suffix` when it does not exist; otherwise it returns the
first (in increasing order of `i`) non-existing numbered candidate
`stem_i + suffix` for `i` in `1 .. max_attempts`, and when every candidate
exists it fails with an IOError naming the final probed path
`stem_max_attempts + suffix`. -/
theorem ensure_unique_filepath_spec (fs : List FsPath) (dir stem suffix : String)
    (max_iter : Int) (h2 : 2 ≤ max_iter) :
    (fsExists fs ⟨dir, stem ++ suffix⟩ = false →
      (ensure_unique_filepath fs dir stem suffix max_iter).1
        = PathResult.ok ⟨dir, stem ++ suffix⟩) ∧
    (fsExists fs ⟨dir, stem ++ suffix⟩ = true →
      (ensure_unique_filepath fs dir stem suffix max_iter).1
        = match (List.range' 1 max_iter.toNat).find?
              (fun i => !fsExists fs ⟨dir, candidateName stem suffix i⟩) with
          | some j => PathResult.ok ⟨dir, candidateName stem suffix j⟩
          | none =>
              PathResult.ioError (some ⟨dir, candidateName stem suffix max_iter.toNat⟩)) := by
  constructor
  · intro hb
    unfold ensure_unique_filepath
    simp [hb]
  · intro hb
    have hm : ¬max_iter ≤ 1 := by omega
    unfold ensure_unique_filepath
    simp only [hb, Bool.not_true, Bool.false_eq_true, if_false, hm]
    rw [uniqueLoop_fst_eq]
    rcases hf : (List.range' 1 max_iter.toNat).find?
        (fun i => !fsExists fs ⟨dir, candidateName stem suffix i⟩) with _ | j
    · rw [getLast?_range'_one max_iter.toNat (by omega)]
      rfl
    · rfl

/-- Witness for claim C4 at a concrete state: `s.x` and `s_1.x` exist, so
resolution skips the taken `s_1.x` and yields `s_2.x`. -/
theorem ensure_unique_filepath_spec_witness :
    (ensure_unique_filepath [⟨"d", "s.x"⟩, ⟨"d", "s_1.x"⟩] "d" "s" ".x" 5).1
      = PathResult.ok ⟨"d", "s_2.x"⟩ := by
  have h := (ensure_unique_filepath_spec [⟨"d", "s.x"⟩, ⟨"d", "s_1.x"⟩] "d" "s" ".x" 5
    (by decide)).2 (by decide)
  rw [h]
  decide

/-- Dropping-while respects pointwise-equal predicates. -/
theorem dropWhile_congr_of {α : Type} (p q : α → Bool) (h : ∀ c, p c = q c)
    (l : List α) : l.dropWhile p = l.dropWhile q := by
  induction l with
  | nil => rfl
  | cons c t ih => simp [List.dropWhile, h c, ih]

/-- Dropping-while is idempotent. -/
theorem dropWhile_self_idem {α : Type} (p : α → Bool) (l : List α) :
    (l.dropWhile p).dropWhile p = l.dropWhile p := by
  induction l with
  | nil => rfl
  | cons c t ih =>
    cases h : p c with
    | false => simp [List.dropWhile, h]
    | true => simp [List.dropWhile, h, ih]

/-- Substituting invalid characters is idempotent when the underscore is
not itself an invalid character. -/
theorem subList_idem (invalid : List Char) (hui : invalid.contains '_' = false)
    (l : List Char) : subList invalid (subList invalid l) = subList invalid l := by
  unfold subList
  rw [List.map_map]
  apply List.map_congr_left
  intro c _
  simp only [Function.comp_apply]
  by_cases hc : invalid.contains c = true
  · rw [if_pos hc, hui]
    simp
  · rw [if_neg hc, if_neg hc]

/-- Trailing-strip commutes with invalid-character substitution when the
substitution does not change membership in the strip set. -/
theorem rstripList_subList_comm (strip invalid : List Char)
    (hmem : ∀ c, strip.contains (if invalid.contains c then '_' else c) = strip.contains c)
    (l : List Char) :
    rstripList strip (subList invalid l) = subList invalid (rstripList strip l) := by
  unfold rstripList subList
  rw [← List.map_reverse, List.dropWhile_map, List.map_reverse]
  congr 1
  exact congrArg _ (dropWhile_congr_of _ _ (fun c => hmem c) _)

/-- Trailing-strip is idempotent. -/
theorem rstripList_idem (strip : List Char) (l : List Char) :
    rstripList strip (rstripList strip l) = rstripList strip l := by
  unfold rstripList
  rw [List.reverse_reverse, dropWhile_self_idem]

/-- Sanitizing a second time changes nothing, provided the strip set and
the invalid set are disjoint and neither contains the underscore. -/
theorem sanitize_fixpoint_list (strip invalid : List Char)
    (hdisj : strip.all (fun c => !invalid.contains c) = true)
    (hs : strip.contains '_' = false)
    (hi : invalid.contains '_' = false)
    (l : List Char) :
    subList invalid (rstripList strip (subList invalid (rstripList strip l)))
      = subList invalid (rstripList strip l) := by
  have hmem : ∀ c, strip.contains (if invalid.contains c then '_' else c)
      = strip.contains c := by
    intro c
    cases hc : invalid.contains c with
    | false => rfl
    | true =>
      simp only [if_true]
      rw [hs]
      cases hsc : strip.contains c with
      | false => rfl
      | true =>
        exfalso
        have hcmem : c ∈ strip := List.elem_iff.mp hsc
        have := (List.all_eq_true.mp hdisj) c hcmem
        rw [hc] at this
        simp at this
  rw [rstripList_subList_comm strip invalid hmem, rstripList_idem,
    subList_idem invalid hi]

/-- Filename sanitization is a fixpoint operation: a name it has produced
passes through it unchanged, on every recognized platform. -/
theorem ensure_valid_filename_fixpoint (system nm v : String)
    (h : ensure_valid_filename system nm = FilenameResult.ok v) :
    ensure_valid_filename system v = FilenameResult.ok v := by
  unfold ensure_valid_filename at h ⊢
  by_cases hw : system = "Windows"
  · simp only [hw, if_true] at h ⊢
    obtain rfl : subInvalidChars windowsInvalidChars (rstripChars [' ', '.'] nm) = v := by
      injection h
    unfold subInvalidChars rstripChars
    exact congrArg FilenameResult.ok (congrArg String.mk
      (sanitize_fixpoint_list [' ', '.'] windowsInvalidChars (by decide) (by decide)
        (by decide) nm.toList))
  · simp only [hw, if_false] at h ⊢
    by_cases hl : system = "Linux"
    · simp only [hl, if_true] at h ⊢
      obtain rfl : subInvalidChars linuxInvalidChars (rstripChars [' '] nm) = v := by
        injection h
      unfold subInvalidChars rstripChars
      exact congrArg FilenameResult.ok (congrArg String.mk
        (sanitize_fixpoint_list [' '] linuxInvalidChars (by decide) (by decide)
          (by decide) nm.toList))
    · simp only [hl, if_false] at h ⊢
      by_cases hd : system = "Darwin"
      · simp only [hd, if_true] at h ⊢
        obtain rfl : subInvalidChars darwinInvalidChars (rstripChars [' '] nm) = v := by
          injection h
        unfold subInvalidChars rstripChars
        exact congrArg FilenameResult.ok (congrArg String.mk
          (sanitize_fixpoint_list [' '] darwinInvalidChars (by decide) (by decide)
            (by decide) nm.toList))
      · simp only [hd, if_false] at h
        exact absurd h (by simp)

/-- Claim C5: on Windows the compiled pattern does NOT match a backslash,
because `\|` inside the character class escapes the pipe; sanitizing the
filename `a\b` therefore leaves the backslash in place, where the claim
requires every Windows-invalid character, backslash included, to be
replaced by an underscore (which would give `a_b`). -/
theorem ensure_valid_filename_windows_backslash :
    ensure_valid_filename "Windows" "a\\b" = FilenameResult.ok "a\\b" ∧
    ("a\\b" : String) ≠ "a_b" := by
  decide

/-- Claim C8: an unrecognized platform string makes sanitization fail with
`PySimReconOSError` (UnsupportedPlatformError), with no fallthrough to any
default rule set; each of the three recognized platforms never raises and
yields a sanitized name. -/
theorem ensure_valid_filename_platforms (system filename : String) :
    ((system ≠ "Windows" ∧ system ≠ "Linux" ∧ system ≠ "Darwin") →
      ensure_valid_filename system filename
        = FilenameResult.osError (system ++ " is not a supported system")) ∧
    ((system = "Windows" ∨ system = "Linux" ∨ system = "Darwin") →
      (ensure_valid_filename system filename).isOk = true) := by
  constructor
  · intro ⟨hw, hl, hd⟩
    unfold ensure_valid_filename
    simp [hw, hl, hd]
  · intro hrec
    unfold ensure_valid_filename
    rcases hrec with h | h | h <;> simp [h, FilenameResult.isOk]

/-- Witness for claim C8: the platform string `Java` is rejected with the
UnsupportedPlatformError message, while `Windows` succeeds. -/
theorem ensure_valid_filename_platforms_witness :
    ensure_valid_filename "Java" "x"
        = FilenameResult.osError ("Java" ++ " is not a supported system") ∧
    (ensure_valid_filename "Windows" "x").isOk = true :=
  ⟨(ensure_valid_filename_platforms "Java" "x").1 (by decide),
   (ensure_valid_filename_platforms "Windows" "x").2 (Or.inl rfl)⟩

/-- Removing a directory removes it: after `rmdirIn` the path is no longer
a directory. -/
theorem rmdirIn_not_isDir (fs : DirListing) (p : String) :
    isDirIn (rmdirIn fs p) p = false := by
  rw [← Bool.not_eq_true, isDirIn, List.any_eq_true]
  rintro ⟨x, hx, hxp⟩
  rw [rmdirIn, List.mem_filter] at hx
  rw [hxp] at hx
  simp at hx

/-- Claim C7: the delete-if-empty guard removes the target directory at
guard exit if and only if it was not a directory when the guard began and
it is an empty directory when the body is done; a pre-existing directory
is never removed (the state is returned untouched), and the body
exception, if any, propagates unchanged through the guard. -/
theorem delete_directory_if_empty_spec (p : String) (fsBefore fsAfter : DirListing)
    (bodyExc : Option String) :
    ((isDirIn fsAfter p = true ∧
        isDirIn (delete_directory_if_empty (some p) fsBefore fsAfter bodyExc).1 p = false)
      ↔ (isDirIn fsBefore p = false ∧ isDirIn fsAfter p = true ∧
          scandirEntries fsAfter p = [])) ∧
    (isDirIn fsBefore p = true →
      (delete_directory_if_empty (some p) fsBefore fsAfter bodyExc).1 = fsAfter) ∧
    (delete_directory_if_empty (some p) fsBefore fsAfter bodyExc).2 = bodyExc := by
  refine ⟨?_, ?_, rfl⟩
  · unfold delete_directory_if_empty
    cases hb : isDirIn fsBefore p <;>
      cases ha : isDirIn fsAfter p <;>
        cases he : (scandirEntries fsAfter p).isEmpty <;>
          simp_all [List.isEmpty_iff, rmdirIn_not_isDir]
  · intro hb
    unfold delete_directory_if_empty
    simp [hb]

/-- Witness for claim C7: a directory created only during the guarded body
and empty at exit is removed; a directory that already existed at entry is
kept even though it is empty at exit. -/
theorem delete_directory_if_empty_spec_witness :
    (isDirIn ([("t", [])] : DirListing) "t" = true ∧
      isDirIn (delete_directory_if_empty (some "t") [] [("t", [])] none).1 "t" = false) ∧
    (delete_directory_if_empty (some "t") [("t", ["x"])] [("t", [])] none).1
      = [("t", [])] :=
  ⟨(delete_directory_if_empty_spec "t" [] [("t", [])] none).1.mpr
     (by refine ⟨rfl, rfl, rfl⟩),
   (delete_directory_if_empty_spec "t" [("t", ["x"])] [("t", [])] none).2.1 (by decide)⟩

/-- Claim C9: constructing a named `NamedTemporaryDirectory`: a missing
parent with parent creation disallowed fails with
`PySimReconFileNotFoundError`; an already existing target with fallback
disallowed fails with `PySimReconFileExistsError`; an already existing
target with fallback allowed falls through to an anonymous uniquely-named
`TemporaryDirectory` under the same parent, with the name as its prefix
argument. -/
theorem namedTemporaryDirectory_spec (fs : List FsNode) (directory nm : String)
    (parents allow_fallback : Bool) :
    ((nodeIsDir fs directory = false ∧ parents = false) →
      (namedTemporaryDirectory fs directory (some nm) parents allow_fallback).1
        = NtdResult.notFoundError
            ("Parent directory " ++ directory ++ " does not exist")) ∧
    ((nodeIsDir fs directory = true ∧ nodeExists fs (directory ++ "/" ++ nm) = true ∧
        allow_fallback = false) →
      (namedTemporaryDirectory fs directory (some nm) parents allow_fallback).1
        = NtdResult.fileExistsError
            ("Directory cannot be created as '" ++ (directory ++ "/" ++ nm)
              ++ "' exists")) ∧
    ((nodeIsDir fs directory = true ∧ nodeExists fs (directory ++ "/" ++ nm) = true ∧
        allow_fallback = true) →
      (namedTemporaryDirectory fs directory (some nm) parents allow_fallback).1
        = NtdResult.anonymous directory (some nm)) := by
  refine ⟨?_, ?_, ?_⟩
  · rintro ⟨hd, hp⟩
    simp [namedTemporaryDirectory, hd, hp]
  · rintro ⟨hd, he, hf⟩
    simp [namedTemporaryDirectory, namedTempDirTarget, hd, he, hf]
  · rintro ⟨hd, he, hf⟩
    simp [namedTemporaryDirectory, namedTempDirTarget, hd, he, hf]

/-- Witness for claim C9: the three flag combinations at concrete states. -/
theorem namedTemporaryDirectory_spec_witness :
    (namedTemporaryDirectory [] "p" (some "n") false true).1
        = NtdResult.notFoundError ("Parent directory " ++ "p" ++ " does not exist") ∧
    (namedTemporaryDirectory [⟨"p", true⟩, ⟨"p/n", true⟩] "p" (some "n") true false).1
        = NtdResult.fileExistsError
            ("Directory cannot be created as '" ++ ("p" ++ "/" ++ "n") ++ "' exists") ∧
    (namedTemporaryDirectory [⟨"p", true⟩, ⟨"p/n", true⟩] "p" (some "n") true true).1
        = NtdResult.anonymous "p" (some "n") :=
  ⟨(namedTemporaryDirectory_spec [] "p" "n" false true).1 ⟨by decide, rfl⟩,
   (namedTemporaryDirectory_spec [⟨"p", true⟩, ⟨"p/n", true⟩] "p" "n" true false).2.1
     ⟨by decide, by decide, rfl⟩,
   (namedTemporaryDirectory_spec [⟨"p", true⟩, ⟨"p/n", true⟩] "p" "n" true true).2.2
     ⟨by decide, by decide, rfl⟩⟩

/-- Claim C1: when opening the target log file fails, entering the
`redirect_output_to` scope RAISES, contrary to the claim: the generator
catches the open failure, logs "Failed to create log file" and returns
without ever yielding, so `contextlib` turns that into a `RuntimeError`
from `__enter__` and the wrapped operation never runs (the job is
aborted by the capture failure). -/
theorem redirect_output_open_failure_aborts :
    (with_redirect_output_to true false true none).raisedToCaller
        = some CaptureExc.runtimeGenDidNotYield ∧
    (with_redirect_output_to true false true none).bodyRan = false ∧
    (with_redirect_output_to true false true none).loggedOpenFailure = true := by
  decide

/-- Claim C10: when the wrapped operation raises inside the redirection
scope (after the log file opened), the exception is thrown into the
generator, caught by its inner handler and logged, and `__exit__` returns
True: the caller observes no exception, while the body did run captured
and the original stream destinations are restored at exit. -/
theorem redirect_output_body_exception_suppressed (e : String) :
    (with_redirect_output_to true true true (some e)).raisedToCaller = none ∧
    (with_redirect_output_to true true true (some e)).bodyRan = true ∧
    (with_redirect_output_to true true true (some e)).bodyCaptured = true ∧
    (with_redirect_output_to true true true (some e)).originalStreamsAtExit = true ∧
    (with_redirect_output_to true true true (some e)).loggedRedirectFailure = true :=
  ⟨rfl, rfl, rfl, rfl, rfl⟩

/-- Taking-while characters differ from the dot keeps a dot-free list
whole. -/
theorem takeWhile_ne_dot_of_not_mem (l : List Char) (h : '.' ∉ l) :
    l.takeWhile (fun c => c ≠ '.') = l := by
  rw [List.takeWhile_eq_self_iff]
  intro c hc
  simp only [decide_eq_true_eq]
  intro heq
  rw [heq] at hc
  exact h hc

/-- A final path component containing no dot has an empty `pySuffix`. -/
theorem pySuffix_eq_empty_of_no_dot (s : String) (h : '.' ∉ s.toList) :
    pySuffix s = "" := by
  have hrev : '.' ∉ s.toList.reverse := by
    rw [List.mem_reverse]
    exact h
  simp only [pySuffix]
  rw [takeWhile_ne_dot_of_not_mem _ hrev, List.length_reverse]
  simp

/-- The name `stem_token` built by `get_temporary_path` is never empty. -/
theorem append_token_ne_empty (stem tok : String) : ¬(stem ++ "_" ++ tok) = "" := by
  intro h
  have h2 := congrArg String.length h
  rw [String.length_append, String.length_append] at h2
  have hu : ("_" : String).length = 1 := rfl
  have he : ("" : String).length = 0 := rfl
  omega

/-- With a valid suffix argument and a name whose `pySuffix` is empty,
`with_suffix` purely appends. -/
theorem with_suffix_append (name suffix : String)
    (hname : ¬name = "")
    (hdot : pySuffix name = "")
    (hsuf : suffix = "" ∨ (strStartsWithDot suffix = true ∧ suffix ≠ "." ∧
        suffix.toList.contains '/' = false)) :
    with_suffix name suffix = Except.ok (name ++ suffix) := by
  unfold with_suffix
  rcases hsuf with rfl | ⟨h1, h2, h3⟩
  · rw [if_neg (by decide), if_neg (by decide), if_neg (by simp [hname])]
    simp [hdot]
  · rw [if_neg (by rw [h3]; simp), if_neg (by rw [h1, beq_eq_false_iff_ne.mpr h2]; simp),
      if_neg (by simp [hname])]
    simp [hdot]

/-- Claim C6 counterexample: with the stem `a.b` (a stem containing a dot)
and suffix `.tif`, `get_temporary_path` returns the filename `a.tif`, not
the claimed `a.b_token.tif`: `Path.with_suffix` replaces everything from
the last dot of the built name. -/
theorem get_temporary_path_dotted_stem_cex :
    get_temporary_path [] "d" "a.b" ".tif" "0123" = PathResult.ok ⟨"d", "a.tif"⟩ ∧
    ("a.tif" : String) ≠ "a.b" ++ "_" ++ "0123" ++ ".tif" := by
  decide

/-- Claim C6 (amended): when the stem and the token contain no dot (true of
every `uuid4` token) and the suffix is empty or a well-formed extension
(starts with a dot, is not the bare dot, has no separator),
`get_temporary_path` returns a path whose filename is exactly
`stem_token + suffix`; when that name already exists it fails immediately
with `PySimReconFileExistsError`, with no retry under a fresh token.  For
a stem containing a dot the filename is instead truncated at the last dot
of that stem (see the counterexample). -/
theorem get_temporary_path_spec (fs : List FsPath)
    (directory stem suffix uuidToken : String)
    (hdot : '.' ∉ (stem ++ "_" ++ uuidToken).toList)
    (hsuf : suffix = "" ∨ (strStartsWithDot suffix = true ∧ suffix ≠ "." ∧
        suffix.toList.contains '/' = false)) :
    get_temporary_path fs directory stem suffix uuidToken
      = if fsExists fs ⟨directory, stem ++ "_" ++ uuidToken ++ suffix⟩ = true then
          PathResult.fileExistsError ⟨directory, stem ++ "_" ++ uuidToken ++ suffix⟩
        else PathResult.ok ⟨directory, stem ++ "_" ++ uuidToken ++ suffix⟩ := by
  unfold get_temporary_path
  rw [with_suffix_append (stem ++ "_" ++ uuidToken) suffix
    (append_token_ne_empty stem uuidToken)
    (pySuffix_eq_empty_of_no_dot _ hdot) hsuf]
  cases hfe : fsExists fs ⟨directory, stem ++ "_" ++ uuidToken ++ suffix⟩ with
  | true => simp [hfe]
  | false => simp [hfe]

/-- Witness for the amended claim C6: a dot-free stem and token yield
exactly `stem_token.suffix`. -/
theorem get_temporary_path_spec_witness :
    get_temporary_path [] "d" "img" ".tif" "0123-abcd"
      = PathResult.ok ⟨"d", "img" ++ "_" ++ "0123-abcd" ++ ".tif"⟩ := by
  have h := get_temporary_path_spec [] "d" "img" ".tif" "0123-abcd"
    (by decide) (Or.inr ⟨by decide, by decide, by decide⟩)
  rw [h]
  decide

/-- Claim C2 counterexample: with `ensure_unique = true`, a stem carrying a
Windows-invalid character (the colon) is existence-checked and returned
verbatim: the returned filename `a:b_OTF.tif` is exactly what sanitization
would have changed (to `a_b_OTF.tif`), so the filename was NOT sanitized
before the filesystem existence check nor in the returned path. -/
theorem create_output_path_unsanitized_cex :
    (create_output_path [] "Windows" "par" "a:b" OutputType.otf ".tif" none none none
        true 99).1 = PathResult.ok ⟨"par", "a:b_OTF.tif"⟩ ∧
    (create_output_path [] "Windows" "par" "a:b" OutputType.otf ".tif" none none none
        true 99).2 = [⟨"par", "a:b_OTF.tif"⟩] ∧
    ensure_valid_filename "Windows" "a:b_OTF.tif" = FilenameResult.ok "a_b_OTF.tif" ∧
    ("a:b_OTF.tif" : String) ≠ "a_b_OTF.tif" := by
  decide

/-- Claim C2 (amended): sanitization happens only in the
`ensure_unique = false` branch of `create_output_path`: there, no existence
check is performed, the directory component is returned untouched, and the
returned filename is platform-valid (sanitizing it again changes nothing).
With `ensure_unique = true` no sanitization is applied at all: every
returned filename, and every filename probed for existence, is built from
the raw unsanitized stem (base or numbered candidate). -/
theorem create_output_path_sanitization (fs : List FsPath) (system : String)
    (file_parent file_stem : String) (output_type : OutputType) (suffix : String)
    (output_directory : Option String) (wavelength : Option Int)
    (timestampStr : Option String) (max_path_iter : Int) :
    ((create_output_path fs system file_parent file_stem output_type suffix
        output_directory wavelength timestampStr false max_path_iter).2 = [] ∧
      (∀ p, (create_output_path fs system file_parent file_stem output_type suffix
            output_directory wavelength timestampStr false max_path_iter).1
          = PathResult.ok p →
        p.dir = output_directory.getD file_parent ∧
          ensure_valid_filename system p.name = FilenameResult.ok p.name)) ∧
    ((∀ p, (create_output_path fs system file_parent file_stem output_type suffix
          output_directory wavelength timestampStr true max_path_iter).1
        = PathResult.ok p →
      p.dir = output_directory.getD file_parent ∧
        (p.name = outputFileStem file_stem output_type wavelength timestampStr ++ suffix
          ∨ ∃ i, p.name = candidateName
              (outputFileStem file_stem output_type wavelength timestampStr) suffix i)) ∧
     (∀ q, q ∈ (create_output_path fs system file_parent file_stem output_type suffix
          output_directory wavelength timestampStr true max_path_iter).2 →
      q.dir = output_directory.getD file_parent ∧
        (q.name = outputFileStem file_stem output_type wavelength timestampStr ++ suffix
          ∨ ∃ i, q.name = candidateName
              (outputFileStem file_stem output_type wavelength timestampStr) suffix i))) := by
  refine ⟨⟨?_, ?_⟩, ?_, ?_⟩
  · unfold create_output_path
    cases heq : ensure_valid_filename system
        (outputFileStem file_stem output_type wavelength timestampStr ++ suffix) with
    | ok nm => simp [heq]
    | osError m => simp [heq]
  · intro p hp
    unfold create_output_path at hp
    simp only [Bool.false_eq_true, if_false] at hp
    cases heq : ensure_valid_filename system
        (outputFileStem file_stem output_type wavelength timestampStr ++ suffix) with
    | ok nm =>
      rw [heq] at hp
      simp only [PathResult.ok.injEq] at hp
      subst hp
      exact ⟨rfl, ensure_valid_filename_fixpoint system _ nm heq⟩
    | osError m =>
      rw [heq] at hp
      simp at hp
  · intro p hp
    unfold create_output_path at hp
    simp only [if_true] at hp
    exact ensure_unique_filepath_ok_shape fs _ _ suffix max_path_iter p hp
  · intro q hq
    unfold create_output_path at hq
    simp only [if_true] at hq
    exact ensure_unique_filepath_trace_shape fs _ _ suffix max_path_iter q hq

/-- Witness for the amended claim C2 at concrete inputs: the non-unique
branch probes nothing and returns a platform-valid filename; the unique
branch returns the raw base name. -/
theorem create_output_path_sanitization_witness :
    (create_output_path [] "Windows" "par" "a:b" OutputType.otf ".tif" none none none
        false 99).2 = [] ∧
    ((⟨"par", "a_b_OTF.tif"⟩ : FsPath).dir = (none : Option String).getD "par" ∧
      ensure_valid_filename "Windows" (⟨"par", "a_b_OTF.tif"⟩ : FsPath).name
        = FilenameResult.ok (⟨"par", "a_b_OTF.tif"⟩ : FsPath).name) ∧
    ((⟨"par", "a:b_OTF.tif"⟩ : FsPath).dir = (none : Option String).getD "par" ∧
      ((⟨"par", "a:b_OTF.tif"⟩ : FsPath).name
          = outputFileStem "a:b" OutputType.otf none none ++ ".tif"
        ∨ ∃ i, (⟨"par", "a:b_OTF.tif"⟩ : FsPath).name
            = candidateName (outputFileStem "a:b" OutputType.otf none none) ".tif" i)) :=
  ⟨(create_output_path_sanitization [] "Windows" "par" "a:b" OutputType.otf ".tif"
      none none none 99).1.1,
   (create_output_path_sanitization [] "Windows" "par" "a:b" OutputType.otf ".tif"
      none none none 99).1.2 ⟨"par", "a_b_OTF.tif"⟩ (by decide),
   (create_output_path_sanitization [] "Windows" "par" "a:b" OutputType.otf ".tif"
      none none none 99).2.1 ⟨"par", "a:b_OTF.tif"⟩ (by decide)⟩

end SimRecon
